import Mathlib

/-!
# Verification of the consultation-summary reconciliation core

Shallow embedding of `src/neso_consultations/summarisation/common.py`
(parse/enrich of bullets and clusters, lexical matcher, stance classifier,
fallback clustering) and of `normalize_choice` from
`src/neso_consultations/processing.py`, together with proofs settling the
spec claims about them.

Conventions of the embedding:
* Python `str` is Lean `String`; per-character operations (`lower`,
  `isalnum`, whitespace) use Lean's ASCII-oriented primitives, which agree
  with Python on the ASCII inputs all claims are about.
* Python `set[str]` values that are only tested for emptiness, size and
  intersection are `List String` values that are deduplicated
  (`List.eraseDups`), preserving first-seen order.
* Python `float` scores `overlap / max(len(q), 1)` are exact rationals
  `ℚ`; the comparisons used by the matcher (`> 0`, `>= 0.08`) agree with
  IEEE evaluation for every feasible token count.
* Python `dict` built by a comprehension is a last-wins association list.
* Fallible dynamic code (`int(...)`, `for x in value`) is embedded in
  `Except String`.
-/

namespace Neso

/-! ## Character-list string primitives -/

/-- `list_starts pat l` : `l` starts with `pat` (Python `str.startswith` on
    the underlying characters). -/
def list_starts : List Char → List Char → Bool
  | [], _ => true
  | _ :: _, [] => false
  | p :: ps, c :: cs => p == c && list_starts ps cs

/-- `list_has_sub pat l` : `pat` occurs contiguously inside `l`
    (Python `pat in l`). -/
def list_has_sub (pat : List Char) : List Char → Bool
  | [] => pat.isEmpty
  | c :: cs => list_starts pat (c :: cs) || list_has_sub pat cs

/-- Python `pat in s` for strings. -/
def str_has (s pat : String) : Bool := list_has_sub pat.data s.data

/-- Python `s.startswith(pat)`. -/
def str_starts (s pat : String) : Bool := list_starts pat.data s.data

/-- Python `s.lower()` (ASCII case mapping). -/
def ascii_lower (s : String) : String := String.mk (s.data.map Char.toLower)

/-- Python `s.strip()`: drop leading and trailing whitespace. -/
def py_strip (s : String) : String :=
  String.mk (((s.data.dropWhile Char.isWhitespace).reverse.dropWhile Char.isWhitespace).reverse)

/-- The maximal runs of characters rejected by `sep` — Python `s.split()`
    behaviour: separators collapse and produce no empty words. -/
def words_by_go (sep : Char → Bool) : List Char → List Char → List (List Char)
  | [], acc => if acc.isEmpty then [] else [acc.reverse]
  | c :: cs, acc =>
      if sep c then
        if acc.isEmpty then words_by_go sep cs [] else acc.reverse :: words_by_go sep cs []
      else words_by_go sep cs (c :: acc)

def words_by (sep : Char → Bool) (l : List Char) : List (List Char) := words_by_go sep l []

/-- Python `s1 < s2` on strings: lexicographic by code point. -/
def list_char_lt : List Char → List Char → Bool
  | [], [] => false
  | [], _ :: _ => true
  | _ :: _, [] => false
  | a :: as, b :: bs =>
      if a.toNat < b.toNat then true
      else if b.toNat < a.toNat then false
      else list_char_lt as bs

def str_lt (s t : String) : Bool := list_char_lt s.data t.data

/-! ## `_clean_text` (processing.py)

`text.replace(u-FEFF, empty).replace(u-200B, empty)` then `re.sub(r"\s+"," ",.)`
then `.strip()`; the collapse-and-strip combination equals joining the
whitespace-separated words with single spaces. -/

def clean_text (s : String) : String :=
  let stripped := s.data.filter (fun c => c ≠ '\uFEFF' ∧ c ≠ '\u200B')
  String.intercalate " " ((words_by Char.isWhitespace stripped).map String.mk)

/-! ## `normalize_choice` (processing.py) -/

/-- The `normalized_aliases` table, in its Python insertion order (the order
    the prefix matches are tried in). -/
def normalized_aliases : List (String × String) :=
  [("strongly agree", "Strongly agree"),
   ("somewhat agree", "Somewhat agree"),
   ("neither agree nor disagree", "Neither agree nor disagree"),
   ("somewhat disagree", "Somewhat disagree"),
   ("strongly disagree", "Strongly disagree"),
   ("yes", "Yes"),
   ("no", "No"),
   ("maybe", "Maybe"),
   ("agree", "Agree"),
   ("disagree", "Disagree"),
   ("neutral", "Neutral"),
   ("no comment", "No comment")]

def normalize_choice_go : List (String × String) → String → String
  | [], _ => ""
  | (key, label) :: rest, text =>
      if str_starts text key then label else normalize_choice_go rest text

/-- `normalize_choice(value)`: first alias whose key is a prefix of the
    cleaned, lower-cased text wins; `None`/empty input gives `""`. -/
def normalize_choice (value : Option String) : String :=
  match value with
  | none => ""
  | some v =>
      if v = "" then ""
      else normalize_choice_go normalized_aliases (ascii_lower (clean_text v))

/-! ## Record / bullet / cluster data model (models.py)

`ResponseItem` keeps the fields the reconciliation core reads
(`record_id`, `response_id`, `organisation_name`, `choice_value`,
`answer_text`, `excerpt`); the remaining presentation-only fields
(`organisation_type`, `region`, `question_id`, `question_text`, `section`)
are never consulted by the functions under verification. Python `int`
fields are `Int` (they may be negative). -/

structure ResponseItem where
  record_id : String
  response_id : String
  organisation_name : String
  choice_value : Option String
  answer_text : String
  excerpt : String
  deriving Repr, DecidableEq

structure BulletPoint where
  text : String
  evidence_ids : List String := []
  count : Int := 0
  supporting_response_ids : List String := []
  supporting_organisations : List String := []
  deriving Repr, DecidableEq

structure QuestionCluster where
  cluster_id : String
  label : String
  stance : String
  member_record_ids : List String := []
  evidence_ids : List String := []
  significance : String := ""
  description : String := ""
  member_count : Int := 0
  response_count : Int := 0
  organisation_count : Int := 0
  supporting_response_ids : List String := []
  supporting_organisations : List String := []
  deriving Repr, DecidableEq

structure EvidenceRef where
  record_id : String
  excerpt : String
  deriving Repr, DecidableEq

/-! ## `_stance_from_item` (summarisation/common.py) -/

def support_labels : List String := ["Strongly agree", "Somewhat agree", "Agree", "Yes"]
def concern_labels : List String := ["Strongly disagree", "Somewhat disagree", "Disagree", "No"]
def neutral_labels : List String := ["Neither agree nor disagree", "Neutral", "Maybe", "No comment"]

def support_keywords : List String := ["support", "welcome", "agree"]
def concern_keywords : List String := ["concern", "risk", "oppose", "disagree"]

def stance_from_item (item : ResponseItem) : String :=
  let normalized := normalize_choice item.choice_value
  if support_labels.contains normalized then "support"
  else if concern_labels.contains normalized then "concern"
  else if neutral_labels.contains normalized then "neutral"
  else
    let text := ascii_lower item.answer_text
    if support_keywords.any (fun w => str_has text w) then "support"
    else if concern_keywords.any (fun w => str_has text w) then "concern"
    else "other"

/-! ## `list.sort(key=…, reverse=True)`

Python's sort is stable; with `reverse=True` elements are ordered by
strictly descending key and ties keep their original relative order.
`insert_desc` moves an element past every strictly greater key. -/

def insert_desc {α κ : Type} [LinearOrder κ] (key : α → κ) (x : α) : List α → List α
  | [] => [x]
  | y :: ys => if key x < key y then y :: insert_desc key x ys else x :: y :: ys

def py_sort_desc {α κ : Type} [LinearOrder κ] (key : α → κ) : List α → List α
  | [] => []
  | x :: xs => insert_desc key x (py_sort_desc key xs)

/-! ## `sorted({...})` on strings

Python `sorted(set(xs))`: the strictly ascending enumeration of the
distinct elements (string order is lexicographic by code point in both
languages). -/

def insert_sorted_unique (s : String) : List String → List String
  | [] => [s]
  | t :: ts =>
      if str_lt s t then s :: t :: ts
      else if s = t then t :: ts
      else t :: insert_sorted_unique s ts

def py_sorted_set (xs : List String) : List String :=
  xs.foldl (fun acc s => insert_sorted_unique s acc) []

/-! ## `str.title()` (used for default labels) -/

def py_title_go : Bool → List Char → List Char
  | _, [] => []
  | prev_alpha, c :: cs =>
      let c2 := if c.isAlpha then (if prev_alpha then c.toLower else c.toUpper) else c
      c2 :: py_title_go c.isAlpha cs

def py_title (s : String) : String := String.mk (py_title_go false s.data)

/-! ## `_tokenize`, `_token_overlap_score`, `_match_record_ids_for_text` -/

/-- The module-level `_STOPWORDS` set, in source order. -/
def STOPWORDS : List String :=
  ["the", "and", "for", "with", "that", "this", "from", "into", "our",
   "your", "you", "are", "was", "were", "have", "has", "had", "what",
   "when", "where", "which", "would", "could", "should", "their", "them",
   "they", "about", "please", "provide", "reasoning", "approach", "agree",
   "disagree", "question", "response", "option", "page"]

/-- `_tokenize`: lower-case alphanumeric runs, keep tokens of length > 2
    that are not stopwords; the Python `set` is a deduplicated list. -/
def tokenize (text : String) : List String :=
  let replaced := text.data.map (fun c => if c.isAlphanum then c.toLower else ' ')
  (((words_by (fun c => c = ' ') replaced).map String.mk).filter
      (fun token => 2 < token.length ∧ ¬ STOPWORDS.contains token)).eraseDups

/-- `_token_overlap_score`: `|q ∩ d| / max(|q|, 1)` as an exact rational
    (`0.0` when either side is empty or the overlap is zero). -/
def token_overlap_score (query_tokens doc_tokens : List String) : ℚ :=
  if query_tokens.isEmpty || doc_tokens.isEmpty then 0
  else
    let overlap := (query_tokens.filter (fun t => doc_tokens.contains t)).length
    if overlap = 0 then 0
    else mkRat overlap (max query_tokens.length 1)

/-- The `min_score = 0.08` threshold, exactly. -/
def min_score : ℚ := mkRat 8 100

/-- `_match_record_ids_for_text`: score every record, keep positive scores
    in input order, stable-sort descending, take the threshold survivors up
    to `top_k`; if that is empty but something scored positive, rescue with
    the first `min(top_k, 3)` of the sorted list. `top_k` is a count. -/
def match_record_ids_for_text (text : String) (items : List ResponseItem) (top_k : Nat) :
    List String :=
  let query_tokens := tokenize text
  if query_tokens.isEmpty then []
  else
    let scored := items.filterMap (fun item =>
      let score := token_overlap_score query_tokens (tokenize item.answer_text)
      if 0 < score then some (score, item.record_id) else none)
    let sorted := py_sort_desc (fun pair => pair.1) scored
    let selected :=
      ((sorted.filter (fun pair => min_score ≤ pair.1)).map (fun pair => pair.2)).take top_k
    if selected.isEmpty && !sorted.isEmpty then
      (sorted.take (min top_k 3)).map (fun pair => pair.2)
    else selected

/-! ## The record map (`{item.record_id: item for item in items}`) -/

/-- Python dict comprehension: the last item with a given `record_id` wins. -/
def lookup_record (items : List ResponseItem) (rid : String) : Option ResponseItem :=
  items.foldl (fun acc item => if item.record_id = rid then some item else acc) none

/-- `rid in record_map`. -/
def in_record_map (items : List ResponseItem) (rid : String) : Bool :=
  (lookup_record items rid).isSome

/-! ## `enrich_bullets_with_support` -/

/-- The evidence resolution of one bullet: keep the declared ids that exist,
    else fall back to the lexical matcher on the bullet text. -/
def bullet_evidence_ids (items : List ResponseItem) (default_top_k : Nat)
    (bullet : BulletPoint) : List String :=
  let evidence0 := bullet.evidence_ids.filter (fun rid => in_record_map items rid)
  if evidence0.isEmpty then match_record_ids_for_text bullet.text items default_top_k
  else evidence0

def enrich_bullet (items : List ResponseItem) (default_top_k : Nat) (bullet : BulletPoint) :
    BulletPoint :=
  let evidence_ids := bullet_evidence_ids items default_top_k bullet
  let supporting_items := evidence_ids.filterMap (fun rid => lookup_record items rid)
  let response_ids := py_sorted_set (supporting_items.map (fun item => item.response_id))
  let organisations := py_sorted_set (supporting_items.map (fun item => item.organisation_name))
  let count := if bullet.count = 0 then (response_ids.length : Int) else bullet.count
  { text := bullet.text,
    evidence_ids := evidence_ids,
    count := count,
    supporting_response_ids := response_ids,
    supporting_organisations := organisations }

def enrich_bullets_with_support (bullets : List BulletPoint) (items : List ResponseItem) :
    List BulletPoint :=
  bullets.map (enrich_bullet items 8)

/-! ## `build_fallback_clusters`

The Python loop appends each item to `buckets[stance]`; since
`_stance_from_item` only returns the four enumerated stances, bucket `s`
is exactly the order-preserving filter of `items` by stance `s`, and
`buckets.items()` enumerates in the fixed insertion order
support, concern, neutral, other. -/

def stance_bucket_order : List String := ["support", "concern", "neutral", "other"]

def fallback_clusters_go (pfx : String) :
    Nat → List (String × List ResponseItem) → List QuestionCluster
  | _, [] => []
  | idx, (stance, bucket_items) :: rest =>
      if bucket_items.isEmpty then fallback_clusters_go pfx (idx + 1) rest
      else
        let ids := bucket_items.map (fun item => item.record_id)
        { cluster_id := pfx ++ "_" ++ toString idx,
          label := py_title stance ++ " viewpoint",
          stance := stance,
          member_record_ids := ids,
          evidence_ids := ids.take (min 8 ids.length),
          significance := "Auto-clustered by stance: " ++ stance ++ "." }
          :: fallback_clusters_go pfx (idx + 1) rest

def build_fallback_clusters (items : List ResponseItem) (pfx : String) : List QuestionCluster :=
  let buckets := stance_bucket_order.map
    (fun stance => (stance, items.filter (fun item => stance_from_item item = stance)))
  let ordered := py_sort_desc (fun pair => pair.2.length) buckets
  fallback_clusters_go pfx 1 ordered

/-! ## `enrich_clusters_with_support` -/

/-- Tier 1 of cluster member resolution: surviving declared members, else
    the lexical matcher on `label + ". " + (significance or description)`. -/
def cluster_member_tier1 (items : List ResponseItem) (cluster : QuestionCluster) : List String :=
  let member0 := cluster.member_record_ids.filter (fun rid => in_record_map items rid)
  if member0.isEmpty then
    let query_text :=
      py_strip (cluster.label ++ ". " ++
        (if cluster.significance ≠ "" then cluster.significance else cluster.description))
    match_record_ids_for_text (if query_text ≠ "" then query_text else cluster.label) items 14
  else member0

/-- Tier 2: if still empty, the declared-stance bucket capped at 14 (kept
    empty when that bucket is empty). -/
def cluster_member_tier2 (items : List ResponseItem) (cluster : QuestionCluster) : List String :=
  let member1 := cluster_member_tier1 items cluster
  if member1.isEmpty then
    let stance_bucket :=
      (items.filter (fun item => stance_from_item item = ascii_lower cluster.stance)).map
        (fun item => item.record_id)
    if stance_bucket.isEmpty then member1 else stance_bucket.take 14
  else member1

/-- Tier 3: if still empty and any records exist, the first
    `min(8, len(items))` records of the universe. -/
def cluster_member_ids (items : List ResponseItem) (cluster : QuestionCluster) : List String :=
  let member2 := cluster_member_tier2 items cluster
  if member2.isEmpty && !items.isEmpty then
    (items.take (min 8 items.length)).map (fun item => item.record_id)
  else member2

def enrich_cluster (items : List ResponseItem) (fallback_pfx : String) (index : Nat)
    (cluster : QuestionCluster) : QuestionCluster :=
  let member_ids := cluster_member_ids items cluster
  let evidence0 := cluster.evidence_ids.filter (fun rid => in_record_map items rid)
  let evidence_ids :=
    if evidence0.isEmpty then member_ids.take (min 8 member_ids.length) else evidence0
  let member_items := member_ids.filterMap (fun rid => lookup_record items rid)
  let response_ids := py_sorted_set (member_items.map (fun item => item.response_id))
  let organisations := py_sorted_set (member_items.map (fun item => item.organisation_name))
  let member_count := if cluster.member_count = 0 then (member_ids.length : Int) else cluster.member_count
  let response_count := if cluster.response_count = 0 then (response_ids.length : Int) else cluster.response_count
  let organisation_count := if cluster.organisation_count = 0 then (organisations.length : Int) else cluster.organisation_count
  let description0 := if cluster.description ≠ "" then cluster.description else cluster.significance
  let description :=
    if description0 ≠ "" then description0
    else
      toString response_count ++ " responses from " ++ toString organisation_count ++
        " organisations with " ++ (if cluster.stance ≠ "" then cluster.stance else "mixed") ++
        " stance."
  { cluster_id := if cluster.cluster_id ≠ "" then cluster.cluster_id else fallback_pfx ++ "_" ++ toString index,
    label := if cluster.label ≠ "" then cluster.label else py_title fallback_pfx ++ " cluster " ++ toString index,
    stance := if cluster.stance ≠ "" then cluster.stance else "neutral",
    member_record_ids := member_ids,
    evidence_ids := evidence_ids,
    significance := cluster.significance,
    description := description,
    member_count := member_count,
    response_count := response_count,
    organisation_count := organisation_count,
    supporting_response_ids := response_ids,
    supporting_organisations := organisations }

def enrich_clusters_go (items : List ResponseItem) (fallback_pfx : String) :
    Nat → List QuestionCluster → List QuestionCluster
  | _, [] => []
  | index, cluster :: rest =>
      enrich_cluster items fallback_pfx index cluster
        :: enrich_clusters_go items fallback_pfx (index + 1) rest

def enrich_clusters_with_support (clusters : List QuestionCluster) (items : List ResponseItem)
    (fallback_pfx : String) : List QuestionCluster :=
  let source_clusters :=
    if clusters.isEmpty then build_fallback_clusters items fallback_pfx else clusters
  enrich_clusters_go items fallback_pfx 1 source_clusters

/-! ## Untyped model payloads

The raw LLM payload is an arbitrary JSON-like Python value. Payload dict
keys are strings (the payloads come from `json.loads`); Python semantics
that can raise (`int(...)`, iteration) live in `Except String`. -/

inductive PyVal where
  | none
  | bool (b : Bool)
  | int (n : Int)
  | str (s : String)
  | list (xs : List PyVal)
  | dict (kvs : List (String × PyVal))
  deriving Repr, BEq

/-- `d.get(key, default)`; duplicate keys behave like repeated assignment
    (last wins). -/
def dict_get (kvs : List (String × PyVal)) (key : String) (dflt : PyVal) : PyVal :=
  kvs.foldl (fun acc pair => if pair.1 = key then pair.2 else acc) dflt

/-- Python truthiness of a value. -/
def py_truthy : PyVal → Bool
  | .none => false
  | .bool b => b
  | .int n => n ≠ 0
  | .str s => s ≠ ""
  | .list xs => ¬ xs.isEmpty
  | .dict kvs => ¬ kvs.isEmpty

/-- `value or 0` (used as `int(item.get("count", 0) or 0)`). -/
def py_or_zero (v : PyVal) : PyVal := if py_truthy v then v else .int 0

/-- `isinstance(value, (str, int))`; Python `bool` is a subclass of `int`. -/
def is_str_int : PyVal → Bool
  | .str _ => true
  | .int _ => true
  | .bool _ => true
  | _ => false

/-- `isinstance(value, str)`. -/
def is_str : PyVal → Bool
  | .str _ => true
  | _ => false

/-- `repr` of a value (comma-separated bracketed sequences, quoted strings;
    string-escaping corner cases are not needed by any claim). -/
def py_repr : PyVal → String
  | .none => "None"
  | .bool b => if b then "True" else "False"
  | .int n => toString n
  | .str s => "'" ++ s ++ "'"
  | .list xs => "[" ++ String.intercalate ", " (xs.attach.map (fun x => py_repr x.1)) ++ "]"
  | .dict kvs =>
      "\x7b" ++
        String.intercalate ", "
          (kvs.attach.map (fun p => "'" ++ p.1.1 ++ "': " ++ py_repr p.1.2)) ++
      "\x7d"
decreasing_by
  · have := List.sizeOf_lt_of_mem x.2
    simp only [PyVal.list.sizeOf_spec]
    omega
  · have h1 := List.sizeOf_lt_of_mem p.2
    have h2 : sizeOf p.1.2 < sizeOf p.1 := by
      obtain ⟨⟨k, v⟩, hp⟩ := p
      simp
    simp only [PyVal.dict.sizeOf_spec]
    omega

/-- `str(value)`: identity on strings, `repr`-style elsewhere (total —
    `str` never raises). -/
def py_str : PyVal → String
  | .str s => s
  | v => py_repr v

/-- Digits of a decimal literal (`none` when empty or non-digit). -/
def digits_to_nat : List Char → Option Nat
  | [] => Option.none
  | cs => go cs 0
where
  go : List Char → Nat → Option Nat
  | [], acc => some acc
  | c :: rest, acc =>
      if c.isDigit then go rest (acc * 10 + (c.toNat - '0'.toNat)) else Option.none

/-- `int(s)` for a string: optional sign around a non-empty digit run, with
    surrounding whitespace stripped (ASCII common case; underscored or
    unicode-digit literals do not occur in the claims). -/
def parse_int_string (s : String) : Option Int :=
  match (py_strip s).data with
  | [] => Option.none
  | '-' :: rest => (digits_to_nat rest).map (fun n => -(n : Int))
  | '+' :: rest => (digits_to_nat rest).map (fun n => (n : Int))
  | l => (digits_to_nat l).map (fun n => (n : Int))

/-- `int(value)`: ints and bools convert, numeric strings parse
    (`ValueError` otherwise), every other type is a `TypeError`. -/
def py_int : PyVal → Except String Int
  | .int n => .ok n
  | .bool b => .ok (if b then 1 else 0)
  | .str s =>
      match parse_int_string s with
      | some n => .ok n
      | Option.none => .error "ValueError: invalid literal for int()"
  | _ => .error "TypeError: int() argument must be a string or a number"

/-- `for value in v`: lists yield elements, strings their characters,
    dicts their keys; everything else raises `TypeError`. -/
def py_iter : PyVal → Except String (List PyVal)
  | .list xs => .ok xs
  | .str s => .ok (s.data.map (fun c => .str (String.mk [c])))
  | .dict kvs => .ok (kvs.map (fun pair => .str pair.1))
  | _ => .error "TypeError: object is not iterable"

/-! ## `parse_bullets` -/

/-- One iteration of the `parse_bullets` loop: `some bullet` to append,
    `none` when the candidate is dropped (empty text). Field expressions
    are evaluated in source order, so a raising field raises even when the
    text is empty. -/
def parse_one_bullet (allowed_ids : List String) (item : PyVal) :
    Except String (Option BulletPoint) := do
  match item with
  | .dict kvs =>
      let text := py_strip (py_str (dict_get kvs "text" (.str "")))
      let ev_raw ← py_iter (dict_get kvs "evidence_ids" (.list []))
      let evidence_ids :=
        (ev_raw.filter (fun v => is_str_int v && allowed_ids.contains (py_str v))).map py_str
      let count ← py_int (py_or_zero (dict_get kvs "count" (.int 0)))
      let sri_raw ← py_iter (dict_get kvs "supporting_response_ids" (.list []))
      let supporting_response_ids := (sri_raw.filter is_str_int).map py_str
      let so_raw ← py_iter (dict_get kvs "supporting_organisations" (.list []))
      let supporting_organisations := (so_raw.filter is_str).map py_str
      if text = "" then return Option.none
      return some
        { text := text, evidence_ids := evidence_ids, count := count,
          supporting_response_ids := supporting_response_ids,
          supporting_organisations := supporting_organisations }
  | _ =>
      let text := py_strip (py_str item)
      if text = "" then return Option.none
      return some { text := text }

def parse_bullets_list (allowed_ids : List String) : List PyVal → Except String (List BulletPoint)
  | [] => .ok []
  | item :: rest => do
      let first ← parse_one_bullet allowed_ids item
      let others ← parse_bullets_list allowed_ids rest
      match first with
      | some bullet => return bullet :: others
      | Option.none => return others

/-- `parse_bullets(raw_value, allowed_ids=...)`. -/
def parse_bullets (raw_value : PyVal) (allowed_ids : List String) :
    Except String (List BulletPoint) :=
  match raw_value with
  | .list items => parse_bullets_list allowed_ids items
  | _ => .ok []

/-! ## `parse_clusters` -/

/-- One iteration of the `parse_clusters` loop (`idx` is the 1-based
    enumeration index): `none` for a non-dict element or an empty label. -/
def parse_one_cluster (allowed_ids : List String) (fallback_pfx : String) (idx : Nat)
    (item : PyVal) : Except String (Option QuestionCluster) := do
  match item with
  | .dict kvs =>
      let cluster_id := py_str (dict_get kvs "cluster_id" (.str (fallback_pfx ++ "_" ++ toString idx)))
      let label := py_strip (py_str (dict_get kvs "label" (.str "")))
      let stance0 := ascii_lower (py_strip (py_str (dict_get kvs "stance" (.str "neutral"))))
      let stance := if stance0 = "" then "neutral" else stance0
      let mem_raw ← py_iter (dict_get kvs "member_record_ids" (.list []))
      let member_ids :=
        (mem_raw.filter (fun v => is_str_int v && allowed_ids.contains (py_str v))).map py_str
      let ev_raw ← py_iter (dict_get kvs "evidence_ids" (.list []))
      let evidence_ids :=
        (ev_raw.filter (fun v => is_str_int v && allowed_ids.contains (py_str v))).map py_str
      let significance := py_strip (py_str (dict_get kvs "significance" (.str "")))
      let description := py_strip (py_str (dict_get kvs "description" (.str "")))
      let member_count ← py_int (py_or_zero (dict_get kvs "member_count" (.int 0)))
      let response_count ← py_int (py_or_zero (dict_get kvs "response_count" (.int 0)))
      let organisation_count ← py_int (py_or_zero (dict_get kvs "organisation_count" (.int 0)))
      let sri_raw ← py_iter (dict_get kvs "supporting_response_ids" (.list []))
      let supporting_response_ids := (sri_raw.filter is_str_int).map py_str
      let so_raw ← py_iter (dict_get kvs "supporting_organisations" (.list []))
      let supporting_organisations := (so_raw.filter is_str).map py_str
      if label = "" then return Option.none
      return some
        { cluster_id := cluster_id, label := label, stance := stance,
          member_record_ids := member_ids, evidence_ids := evidence_ids,
          significance := significance, description := description,
          member_count := member_count, response_count := response_count,
          organisation_count := organisation_count,
          supporting_response_ids := supporting_response_ids,
          supporting_organisations := supporting_organisations }
  | _ => return Option.none

def parse_clusters_list (allowed_ids : List String) (fallback_pfx : String) :
    Nat → List PyVal → Except String (List QuestionCluster)
  | _, [] => .ok []
  | idx, item :: rest => do
      let first ← parse_one_cluster allowed_ids fallback_pfx idx item
      let others ← parse_clusters_list allowed_ids fallback_pfx (idx + 1) rest
      match first with
      | some cluster => return cluster :: others
      | Option.none => return others

/-- `parse_clusters(raw_value, allowed_ids=..., fallback_prefix=...)`. -/
def parse_clusters (raw_value : PyVal) (allowed_ids : List String) (fallback_pfx : String) :
    Except String (List QuestionCluster) :=
  match raw_value with
  | .list items => parse_clusters_list allowed_ids fallback_pfx 1 items
  | _ => .ok []

/-! ## Helper lemmas -/

theorem lookup_record_go_mem {rid : String} (items : List ResponseItem)
    (acc : Option ResponseItem) (it : ResponseItem)
    (h : items.foldl (fun acc item => if item.record_id = rid then some item else acc) acc
          = some it) :
    (it ∈ items ∧ it.record_id = rid) ∨ acc = some it := by
  induction items generalizing acc with
  | nil => exact Or.inr h
  | cons a l ih =>
      rcases ih _ h with h1 | h2
      · exact Or.inl ⟨List.mem_cons_of_mem _ h1.1, h1.2⟩
      · by_cases ha : a.record_id = rid
        · simp only [ha, if_pos] at h2
          obtain rfl : a = it := by simpa using h2
          exact Or.inl ⟨List.mem_cons_self _ _, ha⟩
        · simp only [if_neg ha] at h2
          exact Or.inr h2

theorem lookup_record_mem {items : List ResponseItem} {rid : String} {it : ResponseItem}
    (h : lookup_record items rid = some it) : it ∈ items ∧ it.record_id = rid := by
  rcases lookup_record_go_mem items Option.none it h with h1 | h2
  · exact h1
  · cases h2

theorem lookup_record_go_isSome {rid : String} (items : List ResponseItem)
    (acc : Option ResponseItem) (hacc : acc.isSome = true) :
    (items.foldl (fun acc item => if item.record_id = rid then some item else acc) acc).isSome
      = true := by
  induction items generalizing acc with
  | nil => exact hacc
  | cons a l ih =>
      refine ih _ ?_
      by_cases ha : a.record_id = rid <;> simp [ha, hacc]

theorem lookup_record_isSome {items : List ResponseItem} {rid : String}
    (h : ∃ it ∈ items, it.record_id = rid) : (lookup_record items rid).isSome = true := by
  obtain ⟨it, hmem, hid⟩ := h
  induction items with
  | nil => cases hmem
  | cons a l ih =>
      rcases List.mem_cons.mp hmem with rfl | hmem'
      · exact lookup_record_go_isSome l _ (by simp [lookup_record, hid])
      · show (List.foldl _ (if a.record_id = rid then some a else Option.none) l).isSome = true
        by_cases ha : a.record_id = rid
        · exact lookup_record_go_isSome l _ (by simp [ha])
        · simpa [lookup_record, ha] using ih hmem'

theorem in_record_map_iff {items : List ResponseItem} {rid : String} :
    in_record_map items rid = true ↔ ∃ it ∈ items, it.record_id = rid := by
  constructor
  · intro h
    obtain ⟨it, hit⟩ := Option.isSome_iff_exists.mp h
    exact ⟨it, (lookup_record_mem hit).1, (lookup_record_mem hit).2⟩
  · exact lookup_record_isSome

theorem mem_insert_desc {α κ : Type} [LinearOrder κ] {key : α → κ} {x y : α} {l : List α}
    (h : y ∈ insert_desc key x l) : y = x ∨ y ∈ l := by
  induction l with
  | nil => simpa [insert_desc] using h
  | cons a l ih =>
      rw [insert_desc] at h
      split at h
      · rcases List.mem_cons.mp h with rfl | h'
        · exact Or.inr (List.mem_cons_self _ _)
        · rcases ih h' with h1 | h2
          · exact Or.inl h1
          · exact Or.inr (List.mem_cons_of_mem _ h2)
      · rcases List.mem_cons.mp h with rfl | h'
        · exact Or.inl rfl
        · exact Or.inr h'

theorem mem_py_sort_desc {α κ : Type} [LinearOrder κ] {key : α → κ} {y : α} {l : List α}
    (h : y ∈ py_sort_desc key l) : y ∈ l := by
  induction l with
  | nil => simp [py_sort_desc] at h
  | cons a l ih =>
      rw [py_sort_desc] at h
      rcases mem_insert_desc h with rfl | h'
      · exact List.mem_cons_self _ _
      · exact List.mem_cons_of_mem _ (ih h')

theorem insert_desc_ne_nil {α κ : Type} [LinearOrder κ] {key : α → κ} (x : α) (l : List α) :
    insert_desc key x l ≠ [] := by
  cases l with
  | nil => simp [insert_desc]
  | cons a l => rw [insert_desc]; split <;> simp

theorem py_sort_desc_ne_nil {α κ : Type} [LinearOrder κ] {key : α → κ} {l : List α}
    (h : l ≠ []) : py_sort_desc key l ≠ [] := by
  cases l with
  | nil => exact absurd rfl h
  | cons a l => rw [py_sort_desc]; exact insert_desc_ne_nil _ _

/-- Every id the lexical matcher returns is the `record_id` of a supplied
    record. -/
theorem match_record_ids_valid {text : String} {items : List ResponseItem} {top_k : Nat}
    {rid : String} (h : rid ∈ match_record_ids_for_text text items top_k) :
    ∃ it ∈ items, it.record_id = rid := by
  rw [match_record_ids_for_text] at h
  split at h
  · cases h
  · have key_pair :
        ∀ pair ∈ items.filterMap (fun item =>
            let score := token_overlap_score (tokenize text) (tokenize item.answer_text)
            if 0 < score then some (score, item.record_id) else none),
          ∃ it ∈ items, it.record_id = pair.2 := by
      intro pair hpair
      obtain ⟨it, hit, hsome⟩ := List.mem_filterMap.mp hpair
      refine ⟨it, hit, ?_⟩
      by_cases hsc : 0 < token_overlap_score (tokenize text) (tokenize it.answer_text)
      · simp only [if_pos hsc] at hsome
        cases hsome
        rfl
      · rw [if_neg hsc] at hsome
        exact Option.noConfusion hsome
    -- both result branches draw from the sorted positive-score list
    dsimp only at h
    split at h
    · obtain ⟨pair, hpair, hpr⟩ := List.mem_map.mp h
      have hmem := mem_py_sort_desc (List.mem_of_mem_take hpair)
      simpa [hpr] using key_pair pair hmem
    · have h' := List.mem_of_mem_take h
      obtain ⟨pair, hpair, hpr⟩ := List.mem_map.mp h'
      have hmem := mem_py_sort_desc (List.mem_of_mem_filter hpair)
      simpa [hpr] using key_pair pair hmem

theorem take_ne_nil {α : Type} {l : List α} {n : Nat} (hn : n ≠ 0) (h : l ≠ []) :
    l.take n ≠ [] := by
  cases l with
  | nil => exact absurd rfl h
  | cons a l =>
      cases n with
      | zero => exact absurd rfl hn
      | succ m => simp

/-- The multi-tier fallback ends in the first-8-records sample, so a
    non-empty universe forces non-empty membership. -/
theorem cluster_member_ids_ne_nil (items : List ResponseItem) (cluster : QuestionCluster)
    (hitems : items ≠ []) : cluster_member_ids items cluster ≠ [] := by
  rw [cluster_member_ids]
  by_cases h2 : (cluster_member_tier2 items cluster).isEmpty
  · rw [if_pos (by simp [h2, List.isEmpty_iff, hitems])]
    have htake : items.take (min 8 items.length) ≠ [] :=
      take_ne_nil (by have := List.length_pos.mpr hitems; omega) hitems
    simpa using htake
  · rw [if_neg (by simp [h2])]
    exact fun hnil => h2 (by simp [hnil])

theorem enrich_cluster_member_ne_nil (items : List ResponseItem) (fallback_pfx : String)
    (index : Nat) (cluster : QuestionCluster) (hitems : items ≠ []) :
    (enrich_cluster items fallback_pfx index cluster).member_record_ids ≠ [] := by
  rw [enrich_cluster]
  exact cluster_member_ids_ne_nil items cluster hitems

theorem mem_enrich_clusters_go {items : List ResponseItem} {fallback_pfx : String}
    {c : QuestionCluster} {index : Nat} {source : List QuestionCluster}
    (h : c ∈ enrich_clusters_go items fallback_pfx index source) :
    ∃ idx c0, c = enrich_cluster items fallback_pfx idx c0 := by
  induction source generalizing index with
  | nil => cases h
  | cons a l ih =>
      rw [enrich_clusters_go] at h
      rcases List.mem_cons.mp h with rfl | h'
      · exact ⟨index, a, rfl⟩
      · exact ih h'

/-- C1 (confirmed). Non-empty-membership invariant: for every cluster
    returned by `enrich_clusters_with_support` — over any raw cluster
    candidates and any fallback prefix — if the supplied record universe is
    non-empty then the cluster's `member_record_ids` list is non-empty; the
    multi-tier fallback (lexical match, then stance bucket, then up-to-8
    arbitrary sample from the universe) guarantees this. -/
theorem claim_c1_nonempty_membership (clusters : List QuestionCluster)
    (items : List ResponseItem) (fallback_pfx : String) (hitems : items ≠ []) :
    ∀ c ∈ enrich_clusters_with_support clusters items fallback_pfx,
      c.member_record_ids ≠ [] := by
  intro c hc
  rw [enrich_clusters_with_support] at hc
  obtain ⟨idx, c0, rfl⟩ := mem_enrich_clusters_go hc
  exact enrich_cluster_member_ne_nil items fallback_pfx idx c0 hitems

/-- A one-record universe used to instantiate the universally quantified
    claims. -/
def sample_item : ResponseItem :=
  { record_id := "r1:Q1", response_id := "r1", organisation_name := "OrgA",
    choice_value := Option.none, answer_text := "alpha", excerpt := "alpha" }

/-- The single cluster produced for `sample_item` with an empty candidate
    list (stance-fallback output, fully enriched). -/
def sample_enriched_cluster : QuestionCluster :=
  { cluster_id := "question_1", label := "Other viewpoint", stance := "other",
    member_record_ids := ["r1:Q1"], evidence_ids := ["r1:Q1"],
    significance := "Auto-clustered by stance: other.",
    description := "Auto-clustered by stance: other.",
    member_count := 1, response_count := 1, organisation_count := 1,
    supporting_response_ids := ["r1"], supporting_organisations := ["OrgA"] }

/-- Witness for C1 at a concrete input: the universe `[sample_item]` is
    non-empty, and the concrete cluster the call returns has a non-empty
    member list. -/
theorem claim_c1_nonempty_membership_witness :
    sample_enriched_cluster.member_record_ids ≠ [] :=
  claim_c1_nonempty_membership [] [sample_item] "question" (by decide)
    sample_enriched_cluster (by decide)

/-! ## C2: evidence validity -/

theorem bullet_evidence_ids_valid {items : List ResponseItem} {default_top_k : Nat}
    {bullet : BulletPoint} :
    ∀ rid ∈ bullet_evidence_ids items default_top_k bullet,
      ∃ it ∈ items, it.record_id = rid := by
  intro rid hrid
  rw [bullet_evidence_ids] at hrid
  split at hrid
  · exact match_record_ids_valid hrid
  · exact in_record_map_iff.mp (List.of_mem_filter hrid)

theorem cluster_member_tier1_valid {items : List ResponseItem} {cluster : QuestionCluster} :
    ∀ rid ∈ cluster_member_tier1 items cluster, ∃ it ∈ items, it.record_id = rid := by
  intro rid hrid
  rw [cluster_member_tier1] at hrid
  split at hrid
  · exact match_record_ids_valid hrid
  · exact in_record_map_iff.mp (List.of_mem_filter hrid)

theorem cluster_member_tier2_valid {items : List ResponseItem} {cluster : QuestionCluster} :
    ∀ rid ∈ cluster_member_tier2 items cluster, ∃ it ∈ items, it.record_id = rid := by
  intro rid hrid
  rw [cluster_member_tier2] at hrid
  split at hrid
  · dsimp only at hrid
    split at hrid
    · exact cluster_member_tier1_valid rid hrid
    · have h' := List.mem_of_mem_take hrid
      obtain ⟨it, hit, rfl⟩ := List.mem_map.mp h'
      exact ⟨it, List.mem_of_mem_filter hit, rfl⟩
  · exact cluster_member_tier1_valid rid hrid

theorem cluster_member_ids_valid {items : List ResponseItem} {cluster : QuestionCluster} :
    ∀ rid ∈ cluster_member_ids items cluster, ∃ it ∈ items, it.record_id = rid := by
  intro rid hrid
  rw [cluster_member_ids] at hrid
  split at hrid
  · obtain ⟨it, hit, rfl⟩ := List.mem_map.mp hrid
    exact ⟨it, List.mem_of_mem_take hit, rfl⟩
  · exact cluster_member_tier2_valid rid hrid

theorem enrich_cluster_member_valid {items : List ResponseItem} {fallback_pfx : String}
    {index : Nat} {cluster : QuestionCluster} :
    ∀ rid ∈ (enrich_cluster items fallback_pfx index cluster).member_record_ids,
      ∃ it ∈ items, it.record_id = rid := by
  intro rid hrid
  rw [enrich_cluster] at hrid
  exact cluster_member_ids_valid rid hrid

theorem enrich_cluster_evidence_valid {items : List ResponseItem} {fallback_pfx : String}
    {index : Nat} {cluster : QuestionCluster} :
    ∀ rid ∈ (enrich_cluster items fallback_pfx index cluster).evidence_ids,
      ∃ it ∈ items, it.record_id = rid := by
  intro rid hrid
  rw [enrich_cluster] at hrid
  dsimp only at hrid
  split at hrid
  · exact cluster_member_ids_valid rid (List.mem_of_mem_take hrid)
  · exact in_record_map_iff.mp (List.of_mem_filter hrid)

/-- C2 (confirmed). Evidence validity invariant: every id in `evidence_ids`
    of every enriched bullet, and every id in `evidence_ids` and
    `member_record_ids` of every enriched cluster, is the `record_id` of
    some record of the universe supplied to that call, for all inputs
    including arbitrary declared ids. -/
theorem claim_c2_evidence_validity (bullets : List BulletPoint)
    (clusters : List QuestionCluster) (items : List ResponseItem) (fallback_pfx : String) :
    (∀ b ∈ enrich_bullets_with_support bullets items,
       ∀ rid ∈ b.evidence_ids, ∃ it ∈ items, it.record_id = rid)
  ∧ (∀ c ∈ enrich_clusters_with_support clusters items fallback_pfx,
       (∀ rid ∈ c.member_record_ids, ∃ it ∈ items, it.record_id = rid)
     ∧ (∀ rid ∈ c.evidence_ids, ∃ it ∈ items, it.record_id = rid)) := by
  constructor
  · intro b hb
    rw [enrich_bullets_with_support] at hb
    obtain ⟨b0, _, rfl⟩ := List.mem_map.mp hb
    intro rid hrid
    rw [enrich_bullet] at hrid
    exact bullet_evidence_ids_valid rid hrid
  · intro c hc
    rw [enrich_clusters_with_support] at hc
    obtain ⟨idx, c0, rfl⟩ := mem_enrich_clusters_go hc
    exact ⟨enrich_cluster_member_valid, enrich_cluster_evidence_valid⟩

/-- Witness for C2: a bullet with a bogus declared id over the one-record
    universe; the theorem yields the concrete record behind the id the
    enriched bullet cites. -/
theorem claim_c2_evidence_validity_witness :
    ∃ it ∈ [sample_item], it.record_id = "r1:Q1" :=
  (claim_c2_evidence_validity [{ text := "alpha", evidence_ids := ["bogus:Q9"] }] [] [sample_item]
      "question").1
    (enrich_bullet [sample_item] 8 { text := "alpha", evidence_ids := ["bogus:Q9"] })
    (by decide) "r1:Q1" (by decide)

/-! ## C10: idempotence of bullet enrichment -/

/-- Re-resolving the evidence of an already enriched bullet returns it
    unchanged: every id the first pass produced exists in the record map,
    and an empty first-pass result means the lexical matcher (already
    deterministic in `text` and `items`) found nothing. -/
theorem bullet_evidence_ids_stable (items : List ResponseItem) (k : Nat) (b : BulletPoint) :
    bullet_evidence_ids items k (enrich_bullet items k b)
      = bullet_evidence_ids items k b := by
  have hvalid : ∀ rid ∈ bullet_evidence_ids items k b, in_record_map items rid = true :=
    fun rid h => in_record_map_iff.mpr (bullet_evidence_ids_valid rid h)
  have hfilter : (bullet_evidence_ids items k b).filter (fun rid => in_record_map items rid)
      = bullet_evidence_ids items k b := List.filter_eq_self.mpr hvalid
  have htext : (enrich_bullet items k b).text = b.text := by rw [enrich_bullet]
  have hev : (enrich_bullet items k b).evidence_ids = bullet_evidence_ids items k b := by
    rw [enrich_bullet]
  conv_lhs => rw [bullet_evidence_ids]
  rw [hev, htext, hfilter]
  by_cases hc : (b.evidence_ids.filter (fun rid => in_record_map items rid)).isEmpty = true
  · have hE : bullet_evidence_ids items k b = match_record_ids_for_text b.text items k := by
      rw [bullet_evidence_ids, if_pos hc]
    rw [hE]
    split <;> rfl
  · have hE : bullet_evidence_ids items k b
        = b.evidence_ids.filter (fun rid => in_record_map items rid) := by
      rw [bullet_evidence_ids, if_neg hc]
    rw [if_neg (by rw [hE]; exact hc)]

theorem enrich_bullet_idem (items : List ResponseItem) (k : Nat) (b : BulletPoint) :
    enrich_bullet items k (enrich_bullet items k b) = enrich_bullet items k b := by
  have hstable := bullet_evidence_ids_stable items k b
  have htext : (enrich_bullet items k b).text = b.text := by rw [enrich_bullet]
  have hcount : (enrich_bullet items k b).count
      = if b.count = 0 then
          ((py_sorted_set (((bullet_evidence_ids items k b).filterMap
              (fun rid => lookup_record items rid)).map
                (fun item => item.response_id))).length : Int)
        else b.count := by
    rw [enrich_bullet]
  conv_lhs => rw [enrich_bullet]
  conv_rhs => rw [enrich_bullet]
  rw [hstable, htext, hcount]
  congr 1
  by_cases hb : b.count = 0
  · by_cases hr :
        ((py_sorted_set (((bullet_evidence_ids items k b).filterMap
            (fun rid => lookup_record items rid)).map
              (fun item => item.response_id))).length : Int) = 0
    · simp [hb, hr]
    · simp [hb, hr]
  · simp [hb]

/-- C10 (confirmed). `enrich_bullets_with_support` is idempotent: applying
    it twice with the same record universe yields exactly the same bullet
    list as applying it once. -/
theorem claim_c10_enrich_bullets_idempotent (bullets : List BulletPoint)
    (items : List ResponseItem) :
    enrich_bullets_with_support (enrich_bullets_with_support bullets items) items
      = enrich_bullets_with_support bullets items := by
  simp only [enrich_bullets_with_support, List.map_map]
  induction bullets with
  | nil => rfl
  | cons b l ih =>
      simp only [List.map_cons, Function.comp_apply, enrich_bullet_idem, List.map_map] at *
      rw [ih]

/-! ## C9: "disagree" free text classifies as support -/

theorem list_starts_append_drop {p q l : List Char}
    (h : list_starts (p ++ q) l = true) : list_starts q (l.drop p.length) = true := by
  induction p generalizing l with
  | nil => simpa using h
  | cons c cs ih =>
      cases l with
      | nil => simp [list_starts] at h
      | cons d ds =>
          rw [List.cons_append, list_starts, Bool.and_eq_true] at h
          simpa using ih h.2

theorem list_has_sub_of_starts_drop {pat l : List Char} :
    ∀ n, list_starts pat (l.drop n) = true → list_has_sub pat l = true := by
  induction l with
  | nil =>
      intro n h
      rw [List.drop_nil] at h
      cases pat with
      | nil => rfl
      | cons c cs => simp [list_starts] at h
  | cons c cs ih =>
      intro n h
      cases n with
      | zero =>
          rw [List.drop_zero] at h
          rw [list_has_sub, Bool.or_eq_true]
          exact Or.inl h
      | succ m =>
          rw [List.drop_succ_cons] at h
          rw [list_has_sub, Bool.or_eq_true]
          exact Or.inr (ih m h)

theorem list_has_sub_starts {pat l : List Char} (h : list_has_sub pat l = true) :
    ∃ n, list_starts pat (l.drop n) = true := by
  induction l with
  | nil =>
      refine ⟨0, ?_⟩
      cases pat with
      | nil => rfl
      | cons c cs => simp [list_has_sub, List.isEmpty] at h
  | cons c cs ih =>
      rw [list_has_sub, Bool.or_eq_true] at h
      rcases h with h1 | h2
      · exact ⟨0, h1⟩
      · obtain ⟨n, hn⟩ := ih h2
        exact ⟨n + 1, by simpa using hn⟩

/-- Because "agree" is a suffix of "disagree", any text containing
    "disagree" also contains "agree". -/
theorem str_has_agree_of_disagree {s : String} (h : str_has s "disagree" = true) :
    str_has s "agree" = true := by
  rw [str_has] at h ⊢
  have hsplit : ("disagree" : String).data = ("dis" : String).data ++ ("agree" : String).data := by
    decide
  rw [hsplit] at h
  obtain ⟨n, hn⟩ := list_has_sub_starts h
  have h2 := list_starts_append_drop hn
  rw [List.drop_drop] at h2
  exact list_has_sub_of_starts_drop _ h2

/-- C9 (confirmed). For every record whose `choice_value` does not
    normalize to any canonical label, if the record's lower-cased
    `answer_text` contains the substring "disagree", the stance classifier
    returns `support`: the support keyword "agree" is a substring of
    "disagree" and the support keyword set is checked first. -/
theorem claim_c9_disagree_text_support (item : ResponseItem)
    (hnorm : normalize_choice item.choice_value = "")
    (hdis : str_has (ascii_lower item.answer_text) "disagree" = true) :
    stance_from_item item = "support" := by
  have hagree := str_has_agree_of_disagree hdis
  rw [stance_from_item]
  simp only [hnorm]
  have h1 : support_labels.contains "" = false := by decide
  have h2 : concern_labels.contains "" = false := by decide
  have h3 : neutral_labels.contains "" = false := by decide
  rw [h1, h2, h3]
  simp only [Bool.false_eq_true, if_false]
  have hany : support_keywords.any (fun w => str_has (ascii_lower item.answer_text) w) = true := by
    rw [List.any_eq_true]
    exact ⟨"agree", by decide, hagree⟩
  rw [hany]
  simp

/-- Witness for C9: a record with no categorical answer whose text contains
    "disagree" is classified as support. -/
theorem claim_c9_disagree_text_support_witness :
    stance_from_item
      { record_id := "r9:Q1", response_id := "r9", organisation_name := "OrgI",
        choice_value := Option.none, answer_text := "We disagree strongly",
        excerpt := "We disagree strongly" } = "support" :=
  claim_c9_disagree_text_support _ (by decide) (by decide)

/-! ## C4: the "No comment" stance bug -/

/-- C4 (code bug). The spec says a `choice_value` normalizing to
    "No comment" classifies as `neutral`, and the classifier's own
    `neutral` label set contains "No comment"; but `normalize_choice`
    tries the alias key "no" before "no comment", so "No comment"
    normalizes to "No" and the record classifies as `concern`. The third
    conjunct exhibits the dead "No comment" entry in the classifier's
    neutral set, showing the code contradicts its own tables. -/
theorem claim_c4_no_comment_misclassified :
    normalize_choice (some "No comment") = "No"
  ∧ stance_from_item
      { record_id := "r4:Q1", response_id := "r4", organisation_name := "OrgN",
        choice_value := some "No comment", answer_text := "No comment",
        excerpt := "No comment" } = "concern"
  ∧ "No comment" ∈ neutral_labels := ⟨by decide, by decide, by decide⟩

/-! ## C5: count consistency -/

/-- Counterexample to C5 as stated: a candidate that declares `count = -1`
    keeps that negative count through `parse_bullets` and
    `enrich_bullets_with_support`, so the resulting count is not always
    non-negative. -/
theorem claim_c5_count_negative_counterexample :
    parse_bullets (.list [.dict [("text", .str "apple"), ("count", .int (-1))]]) []
      = .ok [{ text := "apple", count := -1 }]
  ∧ enrich_bullets_with_support [{ text := "apple", count := -1 }] []
      = [{ text := "apple", count := -1 }]
  ∧ ({ text := "apple", count := -1 } : BulletPoint).count < 0 :=
  ⟨by rfl, by rfl, by decide⟩

/-- C5 (corrected). For every bullet enriched by
    `enrich_bullets_with_support`: a nonzero declared count (even a
    negative one) is passed through unchanged; when the declared count is
    zero or absent, the count equals the number of distinct supporting
    response ids resolved from the final evidence ids and is therefore
    non-negative. -/
theorem claim_c5_count_consistency_amended (bullets : List BulletPoint)
    (items : List ResponseItem) :
    List.Forall₂ (fun b b' =>
        (b.count ≠ 0 → b'.count = b.count)
      ∧ (b.count = 0 →
          b'.count = (b'.supporting_response_ids.length : Int) ∧ 0 ≤ b'.count))
      bullets (enrich_bullets_with_support bullets items) := by
  rw [enrich_bullets_with_support]
  rw [List.forall₂_map_right_iff]
  rw [List.forall₂_same]
  intro b _
  have hcount : (enrich_bullet items 8 b).count
      = if b.count = 0 then
          ((py_sorted_set (((bullet_evidence_ids items 8 b).filterMap
              (fun rid => lookup_record items rid)).map
                (fun item => item.response_id))).length : Int)
        else b.count := by
    rw [enrich_bullet]
  have hsri : (enrich_bullet items 8 b).supporting_response_ids
      = py_sorted_set (((bullet_evidence_ids items 8 b).filterMap
          (fun rid => lookup_record items rid)).map (fun item => item.response_id)) := by
    rw [enrich_bullet]
  constructor
  · intro hb
    rw [hcount, if_neg hb]
  · intro hb
    rw [hcount, if_pos hb, hsri]
    exact ⟨rfl, Int.natCast_nonneg _⟩

/-- Witness for C5's amended statement at a concrete input: a zero-count
    bullet over the one-record universe. -/
theorem claim_c5_count_consistency_amended_witness :
    List.Forall₂ (fun b b' : BulletPoint =>
        (b.count ≠ 0 → b'.count = b.count)
      ∧ (b.count = 0 →
          b'.count = (b'.supporting_response_ids.length : Int) ∧ 0 ≤ b'.count))
      [{ text := "alpha" }]
      (enrich_bullets_with_support [{ text := "alpha" }] [sample_item]) :=
  claim_c5_count_consistency_amended [{ text := "alpha" }] [sample_item]

/-! ## C3: parsing of malformed payloads -/

/-- Counterexample to C3 as stated: a wrong-typed `count` field
    (`"count": "abc"`) makes `parse_bullets` raise Python's `ValueError`
    from `int(...)` instead of degrading, and a non-iterable
    `evidence_ids` field (`"evidence_ids": 5`) raises `TypeError`. -/
theorem claim_c3_parse_raises_counterexample :
    parse_bullets (.list [.dict [("text", .str "x"), ("count", .str "abc")]]) []
      = .error "ValueError: invalid literal for int()"
  ∧ parse_bullets (.list [.dict [("text", .str "x"), ("evidence_ids", .int 5)]]) []
      = .error "TypeError: object is not iterable"
  ∧ parse_clusters (.list [.dict [("label", .str "L"), ("member_count", .str "abc")]]) [] "q"
      = .error "ValueError: invalid literal for int()" :=
  ⟨by rfl, by rfl, by rfl⟩

/-- Values whose `int(value or 0)` conversion cannot raise: ints and bools,
    falsy values of every type (which become `0`), and numeric strings. -/
def int_field_ok : PyVal → Bool
  | .int _ => true
  | .bool _ => true
  | .none => true
  | .str s => s = "" || (parse_int_string s).isSome
  | .list xs => xs.isEmpty
  | .dict kvs => kvs.isEmpty

/-- Values `for x in value` can iterate without a `TypeError`. -/
def iterable_field : PyVal → Bool
  | .list _ => true
  | .str _ => true
  | .dict _ => true
  | _ => false

/-- A bullet candidate none of whose field conversions can raise. -/
def bullet_item_ok : PyVal → Bool
  | .dict kvs =>
      int_field_ok (dict_get kvs "count" (.int 0))
        && iterable_field (dict_get kvs "evidence_ids" (.list []))
        && iterable_field (dict_get kvs "supporting_response_ids" (.list []))
        && iterable_field (dict_get kvs "supporting_organisations" (.list []))
  | _ => true

/-- A cluster candidate none of whose field conversions can raise. -/
def cluster_item_ok : PyVal → Bool
  | .dict kvs =>
      int_field_ok (dict_get kvs "member_count" (.int 0))
        && int_field_ok (dict_get kvs "response_count" (.int 0))
        && int_field_ok (dict_get kvs "organisation_count" (.int 0))
        && iterable_field (dict_get kvs "member_record_ids" (.list []))
        && iterable_field (dict_get kvs "evidence_ids" (.list []))
        && iterable_field (dict_get kvs "supporting_response_ids" (.list []))
        && iterable_field (dict_get kvs "supporting_organisations" (.list []))
  | _ => true

theorem py_int_or_zero_ok {v : PyVal} (h : int_field_ok v = true) :
    ∃ n, py_int (py_or_zero v) = .ok n := by
  cases v with
  | none => exact ⟨0, rfl⟩
  | bool b => cases b <;> exact ⟨_, rfl⟩
  | int n =>
      by_cases hn : n = 0
      · subst hn; exact ⟨0, rfl⟩
      · refine ⟨n, ?_⟩
        rw [py_or_zero]
        rw [if_pos (by simpa [py_truthy] using hn)]
        rfl
  | str s =>
      by_cases hs : s = ""
      · subst hs; exact ⟨0, rfl⟩
      · rw [int_field_ok, Bool.or_eq_true] at h
        rcases h with h | h
        · exact absurd (by simpa using h) hs
        · obtain ⟨n, hn⟩ := Option.isSome_iff_exists.mp h
          refine ⟨n, ?_⟩
          rw [py_or_zero, if_pos (by simpa [py_truthy] using hs), py_int, hn]
  | list xs =>
      rw [int_field_ok] at h
      rw [py_or_zero, if_neg (by simp [py_truthy, h])]
      exact ⟨0, rfl⟩
  | dict kvs =>
      rw [int_field_ok] at h
      rw [py_or_zero, if_neg (by simp [py_truthy, h])]
      exact ⟨0, rfl⟩

theorem py_iter_ok {v : PyVal} (h : iterable_field v = true) :
    ∃ l, py_iter v = .ok l := by
  cases v with
  | list xs => exact ⟨xs, rfl⟩
  | str s => exact ⟨_, rfl⟩
  | dict kvs => exact ⟨_, rfl⟩
  | none => cases h
  | bool b => cases h
  | int n => cases h

theorem parse_one_bullet_ok (allowed : List String) (item : PyVal)
    (h : bullet_item_ok item = true) :
    ∃ r, parse_one_bullet allowed item = .ok r := by
  cases item with
  | dict kvs =>
      rw [bullet_item_ok] at h
      simp only [Bool.and_eq_true] at h
      obtain ⟨⟨⟨h1, h2⟩, h3⟩, h4⟩ := h
      obtain ⟨ev, hev⟩ := py_iter_ok h2
      obtain ⟨cnt, hcnt⟩ := py_int_or_zero_ok h1
      obtain ⟨sri, hsri⟩ := py_iter_ok h3
      obtain ⟨so, hso⟩ := py_iter_ok h4
      rw [parse_one_bullet]
      rw [hev, hcnt, hsri, hso]
      simp only [Bind.bind, Except.bind]
      split <;> exact ⟨_, rfl⟩
  | none => simp only [parse_one_bullet]; split <;> exact ⟨_, rfl⟩
  | bool b => simp only [parse_one_bullet]; split <;> exact ⟨_, rfl⟩
  | int n => simp only [parse_one_bullet]; split <;> exact ⟨_, rfl⟩
  | str s => simp only [parse_one_bullet]; split <;> exact ⟨_, rfl⟩
  | list xs => simp only [parse_one_bullet]; split <;> exact ⟨_, rfl⟩

theorem parse_bullets_list_ok (allowed : List String) (l : List PyVal)
    (h : ∀ item ∈ l, bullet_item_ok item = true) :
    ∃ bs, parse_bullets_list allowed l = .ok bs := by
  induction l with
  | nil => exact ⟨[], rfl⟩
  | cons item rest ih =>
      obtain ⟨r, hr⟩ := parse_one_bullet_ok allowed item (h item (List.mem_cons_self _ _))
      obtain ⟨bs, hbs⟩ := ih (fun it hit => h it (List.mem_cons_of_mem _ hit))
      rw [parse_bullets_list]
      rw [hr, hbs]
      simp only [Bind.bind, Except.bind]
      cases r <;> exact ⟨_, rfl⟩

theorem parse_one_cluster_ok (allowed : List String) (fallback_pfx : String) (idx : Nat)
    (item : PyVal) (h : cluster_item_ok item = true) :
    ∃ r, parse_one_cluster allowed fallback_pfx idx item = .ok r := by
  cases item with
  | dict kvs =>
      rw [cluster_item_ok] at h
      simp only [Bool.and_eq_true] at h
      obtain ⟨⟨⟨⟨⟨⟨h1, h2⟩, h3⟩, h4⟩, h5⟩, h6⟩, h7⟩ := h
      obtain ⟨mem, hmem⟩ := py_iter_ok h4
      obtain ⟨ev, hev⟩ := py_iter_ok h5
      obtain ⟨mc, hmc⟩ := py_int_or_zero_ok h1
      obtain ⟨rc, hrc⟩ := py_int_or_zero_ok h2
      obtain ⟨oc, hoc⟩ := py_int_or_zero_ok h3
      obtain ⟨sri, hsri⟩ := py_iter_ok h6
      obtain ⟨so, hso⟩ := py_iter_ok h7
      rw [parse_one_cluster]
      rw [hmem, hev, hmc, hrc, hoc, hsri, hso]
      simp only [Bind.bind, Except.bind]
      split <;> exact ⟨_, rfl⟩
  | none => exact ⟨Option.none, rfl⟩
  | bool b => exact ⟨Option.none, rfl⟩
  | int n => exact ⟨Option.none, rfl⟩
  | str s => exact ⟨Option.none, rfl⟩
  | list xs => exact ⟨Option.none, rfl⟩

theorem parse_clusters_list_ok (allowed : List String) (fallback_pfx : String) (idx : Nat)
    (l : List PyVal) (h : ∀ item ∈ l, cluster_item_ok item = true) :
    ∃ cs, parse_clusters_list allowed fallback_pfx idx l = .ok cs := by
  induction l generalizing idx with
  | nil => exact ⟨[], rfl⟩
  | cons item rest ih =>
      obtain ⟨r, hr⟩ := parse_one_cluster_ok allowed fallback_pfx idx item
        (h item (List.mem_cons_self _ _))
      obtain ⟨cs, hcs⟩ := ih (idx + 1) (fun it hit => h it (List.mem_cons_of_mem _ hit))
      rw [parse_clusters_list]
      rw [hr, hcs]
      simp only [Bind.bind, Except.bind]
      cases r <;> exact ⟨_, rfl⟩

/-- C3 (corrected). The parsers degrade rather than raise on a non-list
    payload, non-object elements and missing fields — but not for every
    wrong-typed field value: whenever each candidate object's numeric
    fields hold ints/bools/falsy values/numeric strings and its id-list
    fields hold iterables (or are absent), `parse_bullets` and
    `parse_clusters` return normally; the counterexample shows a
    non-numeric `count` or a non-iterable `evidence_ids` raises. -/
theorem claim_c3_parse_degrades_amended (raw_b raw_c : PyVal) (allowed : List String)
    (fallback_pfx : String)
    (hb : ∀ xs, raw_b = .list xs → ∀ item ∈ xs, bullet_item_ok item = true)
    (hc : ∀ xs, raw_c = .list xs → ∀ item ∈ xs, cluster_item_ok item = true) :
    (∃ bs, parse_bullets raw_b allowed = .ok bs)
  ∧ (∃ cs, parse_clusters raw_c allowed fallback_pfx = .ok cs) := by
  constructor
  · cases raw_b with
    | list xs => exact parse_bullets_list_ok allowed xs (hb xs rfl)
    | none => exact ⟨[], rfl⟩
    | bool b => exact ⟨[], rfl⟩
    | int n => exact ⟨[], rfl⟩
    | str s => exact ⟨[], rfl⟩
    | dict kvs => exact ⟨[], rfl⟩
  · cases raw_c with
    | list xs => exact parse_clusters_list_ok allowed fallback_pfx 1 xs (hc xs rfl)
    | none => exact ⟨[], rfl⟩
    | bool b => exact ⟨[], rfl⟩
    | int n => exact ⟨[], rfl⟩
    | str s => exact ⟨[], rfl⟩
    | dict kvs => exact ⟨[], rfl⟩

/-- Witness for C3's amended statement: a payload with a missing-field
    object, a bare-string element and a wrong-typed (but falsy) count
    parses without raising, as does a non-list cluster payload. -/
theorem claim_c3_parse_degrades_amended_witness :
    (∃ bs, parse_bullets
        (.list [.dict [("text", .str "x"), ("count", .none)], .str "free text", .int 7])
        ["r1:Q1"] = .ok bs)
  ∧ (∃ cs, parse_clusters (.dict [("oops", .int 1)]) ["r1:Q1"] "question" = .ok cs) :=
  claim_c3_parse_degrades_amended
    (.list [.dict [("text", .str "x"), ("count", .none)], .str "free text", .int 7])
    (.dict [("oops", .int 1)]) ["r1:Q1"] "question"
    (by intro xs hxs item hitem
        cases hxs
        simp only [List.mem_cons, List.not_mem_nil, or_false] at hitem
        rcases hitem with rfl | rfl | rfl <;> rfl)
    (by intro xs hxs
        cases hxs)

/-! ## C6: cluster label defaulting -/

theorem except_bind_ok {α β : Type} {x : Except String α} {f : α → Except String β} {b : β}
    (h : x >>= f = .ok b) : ∃ a, x = .ok a ∧ f a = .ok b := by
  cases x with
  | error e => simp [Bind.bind, Except.bind] at h
  | ok a => exact ⟨a, rfl, by simpa [Bind.bind, Except.bind] using h⟩

/-- A candidate `parse_clusters` keeps always has a non-empty label: the
    `if not label: continue` gate runs before the append. -/
theorem parse_one_cluster_some_label {allowed : List String} {fallback_pfx : String}
    {idx : Nat} {item : PyVal} {c : QuestionCluster}
    (h : parse_one_cluster allowed fallback_pfx idx item = .ok (some c)) :
    c.label ≠ "" := by
  cases item with
  | dict kvs =>
      rw [parse_one_cluster] at h
      simp only [Bind.bind, Except.bind, Pure.pure, Except.pure] at h
      repeat' split at h
      all_goals
        first
          | exact Except.noConfusion h
          | (simp only [Except.ok.injEq, Option.some.injEq] at h
             first
               | exact Option.noConfusion h
               | (subst h; simp_all))
  | none => simp [parse_one_cluster, Pure.pure, Except.pure] at h
  | bool b => simp [parse_one_cluster, Pure.pure, Except.pure] at h
  | int n => simp [parse_one_cluster, Pure.pure, Except.pure] at h
  | str s => simp [parse_one_cluster, Pure.pure, Except.pure] at h
  | list xs => simp [parse_one_cluster, Pure.pure, Except.pure] at h

theorem parse_clusters_list_label_ne {allowed : List String} {fallback_pfx : String} :
    ∀ {idx : Nat} {l : List PyVal} {cs : List QuestionCluster},
      parse_clusters_list allowed fallback_pfx idx l = .ok cs → ∀ c ∈ cs, c.label ≠ "" := by
  intro idx l
  induction l generalizing idx with
  | nil =>
      intro cs h c hc
      rw [parse_clusters_list] at h
      cases h
      cases hc
  | cons item rest ih =>
      intro cs h c hc
      rw [parse_clusters_list] at h
      obtain ⟨first, hfirst, h⟩ := except_bind_ok h
      obtain ⟨others, hothers, h⟩ := except_bind_ok h
      cases first with
      | some cluster =>
          simp only [Pure.pure, Except.pure, Except.ok.injEq] at h
          subst h
          rcases List.mem_cons.mp hc with rfl | hmem
          · exact parse_one_cluster_some_label hfirst
          · exact ih hothers c hmem
      | none =>
          simp only [Pure.pure, Except.pure, Except.ok.injEq] at h
          subst h
          exact ih hothers c hc

/-- Counterexample to C6 as stated: of two candidates — the first with an
    empty label — only the labelled one survives the
    `parse_clusters` / `enrich_clusters_with_support` pipeline. The
    labelless candidate is dropped, not retained with the default label
    "Question cluster 1". -/
theorem claim_c6_label_default_counterexample :
    parse_clusters (.list [.dict [("label", .str "")], .dict [("label", .str "Real")]])
        ["r1:Q1"] "question"
      = .ok [{ cluster_id := "question_2", label := "Real", stance := "neutral" }]
  ∧ (enrich_clusters_with_support
        [{ cluster_id := "question_2", label := "Real", stance := "neutral" }]
        [sample_item] "question").map QuestionCluster.label = ["Real"]
  ∧ py_title "question" ++ " cluster 1" = "Question cluster 1" :=
  ⟨by rfl, by rfl, by rfl⟩

/-- C6 (corrected). A cluster candidate whose label is missing or empty
    after trimming is silently dropped by `parse_clusters` (every parsed
    cluster has a non-empty label); the default label
    "<fallback_prefix title-cased> cluster <i>" exists only inside
    `enrich_clusters_with_support` and applies to a source cluster with an
    empty label — a shape `parse_clusters` never emits. -/
theorem claim_c6_cluster_label_amended :
    (∀ (raw : PyVal) (allowed : List String) (fallback_pfx : String)
       (cs : List QuestionCluster),
        parse_clusters raw allowed fallback_pfx = .ok cs → ∀ c ∈ cs, c.label ≠ "")
  ∧ (∀ (items : List ResponseItem) (fallback_pfx : String) (index : Nat)
       (cluster : QuestionCluster), cluster.label = "" →
        (enrich_cluster items fallback_pfx index cluster).label
          = py_title fallback_pfx ++ " cluster " ++ toString index) := by
  constructor
  · intro raw allowed fallback_pfx cs h
    cases raw with
    | list xs => exact parse_clusters_list_label_ne h
    | none => cases h; intro c hc; cases hc
    | bool b => cases h; intro c hc; cases hc
    | int n => cases h; intro c hc; cases hc
    | str s => cases h; intro c hc; cases hc
    | dict kvs => cases h; intro c hc; cases hc
  · intro items fallback_pfx index cluster hlabel
    rw [enrich_cluster]
    simp [hlabel]

/-- Witness for C6's amended statement: the parsed labelled cluster has a
    non-empty label, and a (hypothetical) empty-label cluster fed straight
    to the enrichment step does get the default label. -/
theorem claim_c6_cluster_label_amended_witness :
    ({ cluster_id := "question_1", label := "Real",
       stance := "neutral" } : QuestionCluster).label ≠ ""
  ∧ (enrich_cluster [] "question" 1
      { cluster_id := "", label := "", stance := "" }).label = "Question cluster 1" :=
  ⟨claim_c6_cluster_label_amended.1 (.list [.dict [("label", .str "Real")]]) ["r1:Q1"]
      "question" [{ cluster_id := "question_1", label := "Real", stance := "neutral" }]
      (by rfl) _ (List.mem_cons_self _ _),
   (claim_c6_cluster_label_amended.2 [] "question" 1
      { cluster_id := "", label := "", stance := "" } rfl).trans (by decide)⟩

/-! ## C7: the lexical matcher's rescue rule -/

/-- A 13-token query: a record sharing exactly one token scores 1/13,
    positive but below the 0.08 threshold. -/
def c7_query : String :=
  "alpha beta gamma delta epsilon zeta eta theta iota kappa lambda omega sigma"

def c7_item1 : ResponseItem :=
  { record_id := "m1:Q", response_id := "m1", organisation_name := "OrgM1",
    choice_value := Option.none, answer_text := "alpha", excerpt := "alpha" }

def c7_item2 : ResponseItem :=
  { record_id := "m2:Q", response_id := "m2", organisation_name := "OrgM2",
    choice_value := Option.none, answer_text := "beta", excerpt := "beta" }

def c7_item3 : ResponseItem :=
  { record_id := "m3:Q", response_id := "m3", organisation_name := "OrgM3",
    choice_value := Option.none, answer_text := "gamma", excerpt := "gamma" }

/-- Counterexample to C7 as stated: with `top_k = 1`, all three records
    score 1/13 — positive but below the threshold — yet the rescue returns
    `min(top_k, 3) = 1` id, not the top 3. -/
theorem claim_c7_matcher_rescue_counterexample :
    token_overlap_score (tokenize c7_query) (tokenize c7_item1.answer_text) = mkRat 1 13
  ∧ token_overlap_score (tokenize c7_query) (tokenize c7_item2.answer_text) = mkRat 1 13
  ∧ token_overlap_score (tokenize c7_query) (tokenize c7_item3.answer_text) = mkRat 1 13
  ∧ mkRat 1 13 < min_score ∧ 0 < mkRat 1 13
  ∧ match_record_ids_for_text c7_query [c7_item1, c7_item2, c7_item3] 1 = ["m1:Q"]
  ∧ match_record_ids_for_text c7_query [c7_item1, c7_item2, c7_item3] 1
      ≠ ["m1:Q", "m2:Q", "m3:Q"] :=
  ⟨by rfl, by rfl, by rfl, by decide, by decide, by rfl, by decide⟩

/-- C7 (corrected). If no record reaches the 0.08 threshold but at least
    one scores > 0, the matcher returns a non-empty result: the top
    `min(top_k, 3)` (not 3) record ids by stable-descending score, provided
    `top_k ≥ 1` (with `top_k = 0` the result is empty). -/
theorem claim_c7_matcher_rescue_amended (text : String) (items : List ResponseItem)
    (top_k : Nat)
    (hbelow : ∀ it ∈ items,
      token_overlap_score (tokenize text) (tokenize it.answer_text) < min_score)
    (hpos : ∃ it ∈ items,
      0 < token_overlap_score (tokenize text) (tokenize it.answer_text))
    (htop : 1 ≤ top_k) :
    match_record_ids_for_text text items top_k ≠ []
  ∧ match_record_ids_for_text text items top_k
      = ((py_sort_desc (fun pair => pair.1)
            (items.filterMap (fun item =>
              let score := token_overlap_score (tokenize text) (tokenize item.answer_text)
              if 0 < score then some (score, item.record_id) else none))).take
          (min top_k 3)).map (fun pair => pair.2) := by
  obtain ⟨w, hw, hwpos⟩ := hpos
  have hq : (tokenize text).isEmpty ≠ true := by
    intro hq'
    rw [List.isEmpty_iff] at hq'
    rw [token_overlap_score, hq'] at hwpos
    simp at hwpos
  have hw_mem : (token_overlap_score (tokenize text) (tokenize w.answer_text), w.record_id)
      ∈ items.filterMap (fun item =>
          let score := token_overlap_score (tokenize text) (tokenize item.answer_text)
          if 0 < score then some (score, item.record_id) else none) :=
    List.mem_filterMap.mpr ⟨w, hw, by rw [if_pos hwpos]⟩
  have hscored_ne : items.filterMap (fun item =>
      let score := token_overlap_score (tokenize text) (tokenize item.answer_text)
      if 0 < score then some (score, item.record_id) else none) ≠ [] := by
    intro h0
    rw [h0] at hw_mem
    cases hw_mem
  have hsorted_ne :=
    @py_sort_desc_ne_nil (ℚ × String) ℚ _ (fun pair => pair.1) _ hscored_ne
  have hfilter_nil : (py_sort_desc (fun pair => pair.1)
      (items.filterMap (fun item =>
        let score := token_overlap_score (tokenize text) (tokenize item.answer_text)
        if 0 < score then some (score, item.record_id) else none))).filter
          (fun pair => min_score ≤ pair.1) = [] := by
    rw [List.filter_eq_nil_iff]
    intro pair hpair
    have hmem := mem_py_sort_desc hpair
    obtain ⟨it, hit, hsome⟩ := List.mem_filterMap.mp hmem
    by_cases hsc : 0 < token_overlap_score (tokenize text) (tokenize it.answer_text)
    · rw [if_pos hsc] at hsome
      cases hsome
      simpa using not_le.mpr (hbelow it hit)
    · rw [if_neg hsc] at hsome
      exact Option.noConfusion hsome
  have hresult : match_record_ids_for_text text items top_k
      = ((py_sort_desc (fun pair => pair.1)
            (items.filterMap (fun item =>
              let score := token_overlap_score (tokenize text) (tokenize item.answer_text)
              if 0 < score then some (score, item.record_id) else none))).take
          (min top_k 3)).map (fun pair => pair.2) := by
    rw [match_record_ids_for_text, if_neg hq]
    dsimp only
    rw [hfilter_nil, List.map_nil, List.take_nil]
    rw [if_pos]
    simp [hsorted_ne]
  refine ⟨?_, hresult⟩
  rw [hresult]
  intro hnil
  rw [List.map_eq_nil_iff] at hnil
  exact take_ne_nil (by omega) hsorted_ne hnil

/-- Witness for C7's amended statement: with `top_k = 8` over the three
    below-threshold records the rescue returns the top three. -/
theorem claim_c7_matcher_rescue_amended_witness :
    match_record_ids_for_text c7_query [c7_item1, c7_item2, c7_item3] 8 ≠ []
  ∧ match_record_ids_for_text c7_query [c7_item1, c7_item2, c7_item3] 8
      = ((py_sort_desc (fun pair => pair.1)
            ([c7_item1, c7_item2, c7_item3].filterMap (fun item =>
              let score := token_overlap_score (tokenize c7_query) (tokenize item.answer_text)
              if 0 < score then some (score, item.record_id) else none))).take
          (min 8 3)).map (fun pair => pair.2) :=
  claim_c7_matcher_rescue_amended c7_query [c7_item1, c7_item2, c7_item3] 8
    (by decide) ⟨c7_item1, by decide, by decide⟩ (by decide)

/-! ## C8: the two-bucket fallback clustering scenario -/

theorem stance_from_item_cases (item : ResponseItem) :
    stance_from_item item = "support" ∨ stance_from_item item = "concern"
  ∨ stance_from_item item = "neutral" ∨ stance_from_item item = "other" := by
  unfold stance_from_item
  dsimp only
  split
  · exact Or.inl rfl
  · split
    · exact Or.inr (Or.inl rfl)
    · split
      · exact Or.inr (Or.inr (Or.inl rfl))
      · split
        · exact Or.inl rfl
        · split
          · exact Or.inr (Or.inl rfl)
          · exact Or.inr (Or.inr (Or.inr rfl))

/-- The four stance filters partition the record list. -/
theorem stance_filter_partition (items : List ResponseItem) :
    (items.filter (fun it => stance_from_item it = "support")).length
  + (items.filter (fun it => stance_from_item it = "concern")).length
  + (items.filter (fun it => stance_from_item it = "neutral")).length
  + (items.filter (fun it => stance_from_item it = "other")).length
  = items.length := by
  induction items with
  | nil => rfl
  | cons a l ih =>
      rcases stance_from_item_cases a with h | h | h | h <;>
        · simp [List.filter_cons, h]
          omega

/-- An enriched cluster whose declared members and evidence all exist and
    are non-empty keeps them; with a zero declared member count the final
    count is the member-list length. -/
theorem enrich_cluster_valid_fields (items : List ResponseItem) (fallback_pfx : String)
    (index : Nat) (cluster : QuestionCluster)
    (hmem_valid : ∀ rid ∈ cluster.member_record_ids, in_record_map items rid = true)
    (hmem_ne : cluster.member_record_ids ≠ [])
    (hev_valid : ∀ rid ∈ cluster.evidence_ids, in_record_map items rid = true)
    (hev_ne : cluster.evidence_ids ≠ [])
    (hstance : cluster.stance ≠ "")
    (hcount : cluster.member_count = 0) :
    (enrich_cluster items fallback_pfx index cluster).stance = cluster.stance
  ∧ (enrich_cluster items fallback_pfx index cluster).member_count
      = (cluster.member_record_ids.length : Int)
  ∧ (enrich_cluster items fallback_pfx index cluster).evidence_ids = cluster.evidence_ids := by
  have hm0 : cluster.member_record_ids.filter (fun rid => in_record_map items rid)
      = cluster.member_record_ids := List.filter_eq_self.mpr hmem_valid
  have htier1 : cluster_member_tier1 items cluster = cluster.member_record_ids := by
    rw [cluster_member_tier1]
    rw [hm0, if_neg (by simp [List.isEmpty_iff, hmem_ne])]
  have htier2 : cluster_member_tier2 items cluster = cluster.member_record_ids := by
    rw [cluster_member_tier2, htier1, if_neg (by simp [List.isEmpty_iff, hmem_ne])]
  have hmember : cluster_member_ids items cluster = cluster.member_record_ids := by
    rw [cluster_member_ids, htier2]
    rw [if_neg (by simp [List.isEmpty_iff, hmem_ne])]
  have hev0 : cluster.evidence_ids.filter (fun rid => in_record_map items rid)
      = cluster.evidence_ids := List.filter_eq_self.mpr hev_valid
  rw [enrich_cluster]
  dsimp only
  rw [hmember, hev0]
  refine ⟨?_, ?_, ?_⟩
  · rw [if_pos hstance]
  · rw [if_pos hcount]
  · rw [if_neg (by simp [List.isEmpty_iff, hev_ne])]

/-- C8 (confirmed). Over an empty candidate list and a universe of 10
    records of which exactly 5 classify as `support` and 5 as `concern`,
    `enrich_clusters_with_support` yields exactly 2 clusters — the support
    cluster first (descending member count, fixed bucket-order
    tie-breaking), then the concern cluster — each with `member_count = 5`
    and at most 8 evidence ids. -/
theorem claim_c8_fallback_scenario (items : List ResponseItem) (fallback_pfx : String)
    (h10 : items.length = 10)
    (hs : (items.filter (fun it => stance_from_item it = "support")).length = 5)
    (hc : (items.filter (fun it => stance_from_item it = "concern")).length = 5) :
    ∃ c1 c2, enrich_clusters_with_support [] items fallback_pfx = [c1, c2]
      ∧ c1.stance = "support" ∧ c2.stance = "concern"
      ∧ c1.member_count = 5 ∧ c2.member_count = 5
      ∧ c1.evidence_ids.length ≤ 8 ∧ c2.evidence_ids.length ≤ 8 := by
  have hpart := stance_filter_partition items
  rw [hs, hc, h10] at hpart
  have hn : items.filter (fun it => stance_from_item it = "neutral") = [] :=
    List.length_eq_zero.mp (by omega)
  have ho : items.filter (fun it => stance_from_item it = "other") = [] :=
    List.length_eq_zero.mp (by omega)
  set Fs := items.filter (fun it => stance_from_item it = "support") with hFs
  set Fc := items.filter (fun it => stance_from_item it = "concern") with hFc
  have hFs_ne : Fs ≠ [] := by
    intro h0
    rw [h0] at hs
    simp at hs
  have hFc_ne : Fc ≠ [] := by
    intro h0
    rw [h0] at hc
    simp at hc
  -- the stable descending sort leaves the bucket list in place: 5, 5, 0, 0
  have hsorted : py_sort_desc (fun pair => pair.2.length)
      [("support", Fs), ("concern", Fc),
       ("neutral", ([] : List ResponseItem)), ("other", ([] : List ResponseItem))]
      = [("support", Fs), ("concern", Fc), ("neutral", []), ("other", [])] := by
    simp [py_sort_desc, insert_desc, hs, hc]
  have hbuild : build_fallback_clusters items fallback_pfx
      = [{ cluster_id := fallback_pfx ++ "_" ++ toString 1,
           label := py_title "support" ++ " viewpoint", stance := "support",
           member_record_ids := Fs.map (fun item => item.record_id),
           evidence_ids := (Fs.map (fun item => item.record_id)).take
             (min 8 (Fs.map (fun item => item.record_id)).length),
           significance := "Auto-clustered by stance: support." },
         { cluster_id := fallback_pfx ++ "_" ++ toString 2,
           label := py_title "concern" ++ " viewpoint", stance := "concern",
           member_record_ids := Fc.map (fun item => item.record_id),
           evidence_ids := (Fc.map (fun item => item.record_id)).take
             (min 8 (Fc.map (fun item => item.record_id)).length),
           significance := "Auto-clustered by stance: concern." }] := by
    rw [build_fallback_clusters]
    dsimp only [stance_bucket_order, List.map]
    rw [← hFs, ← hFc, hn, ho, hsorted]
    rw [fallback_clusters_go, if_neg (by simp [List.isEmpty_iff, hFs_ne])]
    rw [fallback_clusters_go, if_neg (by simp [List.isEmpty_iff, hFc_ne])]
    rw [fallback_clusters_go, if_pos (by simp)]
    rw [fallback_clusters_go, if_pos (by simp)]
    rw [fallback_clusters_go]
    rfl
  have hvalid_s : ∀ rid ∈ Fs.map (fun item => item.record_id),
      in_record_map items rid = true := by
    intro rid hrid
    obtain ⟨it, hit, rfl⟩ := List.mem_map.mp hrid
    exact in_record_map_iff.mpr ⟨it, List.mem_of_mem_filter hit, rfl⟩
  have hvalid_c : ∀ rid ∈ Fc.map (fun item => item.record_id),
      in_record_map items rid = true := by
    intro rid hrid
    obtain ⟨it, hit, rfl⟩ := List.mem_map.mp hrid
    exact in_record_map_iff.mpr ⟨it, List.mem_of_mem_filter hit, rfl⟩
  have hids_s_ne : Fs.map (fun item => item.record_id) ≠ [] := by
    simpa using hFs_ne
  have hids_c_ne : Fc.map (fun item => item.record_id) ≠ [] := by
    simpa using hFc_ne
  have hlen_s : (Fs.map (fun item => item.record_id)).length = 5 := by
    rw [List.length_map]; exact hs
  have hlen_c : (Fc.map (fun item => item.record_id)).length = 5 := by
    rw [List.length_map]; exact hc
  have hfields1 := enrich_cluster_valid_fields items fallback_pfx 1
    { cluster_id := fallback_pfx ++ "_" ++ toString 1,
      label := py_title "support" ++ " viewpoint", stance := "support",
      member_record_ids := Fs.map (fun item => item.record_id),
      evidence_ids := (Fs.map (fun item => item.record_id)).take
        (min 8 (Fs.map (fun item => item.record_id)).length),
      significance := "Auto-clustered by stance: support." }
    hvalid_s hids_s_ne
    (fun rid hrid => hvalid_s rid (List.mem_of_mem_take hrid))
    (take_ne_nil (by rw [hlen_s]; omega) hids_s_ne) (by simp) rfl
  have hfields2 := enrich_cluster_valid_fields items fallback_pfx 2
    { cluster_id := fallback_pfx ++ "_" ++ toString 2,
      label := py_title "concern" ++ " viewpoint", stance := "concern",
      member_record_ids := Fc.map (fun item => item.record_id),
      evidence_ids := (Fc.map (fun item => item.record_id)).take
        (min 8 (Fc.map (fun item => item.record_id)).length),
      significance := "Auto-clustered by stance: concern." }
    hvalid_c hids_c_ne
    (fun rid hrid => hvalid_c rid (List.mem_of_mem_take hrid))
    (take_ne_nil (by rw [hlen_c]; omega) hids_c_ne) (by simp) rfl
  have hmain : enrich_clusters_with_support [] items fallback_pfx
      = [enrich_cluster items fallback_pfx 1
          { cluster_id := fallback_pfx ++ "_" ++ toString 1,
            label := py_title "support" ++ " viewpoint", stance := "support",
            member_record_ids := Fs.map (fun item => item.record_id),
            evidence_ids := (Fs.map (fun item => item.record_id)).take
              (min 8 (Fs.map (fun item => item.record_id)).length),
            significance := "Auto-clustered by stance: support." },
         enrich_cluster items fallback_pfx 2
          { cluster_id := fallback_pfx ++ "_" ++ toString 2,
            label := py_title "concern" ++ " viewpoint", stance := "concern",
            member_record_ids := Fc.map (fun item => item.record_id),
            evidence_ids := (Fc.map (fun item => item.record_id)).take
              (min 8 (Fc.map (fun item => item.record_id)).length),
            significance := "Auto-clustered by stance: concern." }] := by
    rw [enrich_clusters_with_support]
    rw [if_pos (by simp), hbuild]
    rw [enrich_clusters_go, enrich_clusters_go, enrich_clusters_go]
  refine ⟨_, _, hmain, hfields1.1, hfields2.1, ?_, ?_, ?_, ?_⟩
  · rw [hfields1.2.1]
    dsimp only
    rw [hlen_s]
    rfl
  · rw [hfields2.2.1]
    dsimp only
    rw [hlen_c]
    rfl
  · rw [hfields1.2.2]
    dsimp only
    calc ((Fs.map (fun item => item.record_id)).take
            (min 8 (Fs.map (fun item => item.record_id)).length)).length
        ≤ min 8 (Fs.map (fun item => item.record_id)).length := List.length_take_le _ _
      _ ≤ 8 := min_le_left _ _
  · rw [hfields2.2.2]
    dsimp only
    calc ((Fc.map (fun item => item.record_id)).take
            (min 8 (Fc.map (fun item => item.record_id)).length)).length
        ≤ min 8 (Fc.map (fun item => item.record_id)).length := List.length_take_le _ _
      _ ≤ 8 := min_le_left _ _

/-- One record of the C8 witness universe. -/
def c8_item (i : Nat) (cv : String) : ResponseItem :=
  { record_id := "r" ++ toString i ++ ":Q", response_id := "r" ++ toString i,
    organisation_name := "Org" ++ toString i, choice_value := some cv,
    answer_text := "", excerpt := "" }

/-- Ten records: five agreeing (support stance), five disagreeing
    (concern stance), interleaved. -/
def c8_items : List ResponseItem :=
  [c8_item 1 "Agree", c8_item 2 "Disagree", c8_item 3 "Agree", c8_item 4 "Disagree",
   c8_item 5 "Agree", c8_item 6 "Disagree", c8_item 7 "Agree", c8_item 8 "Disagree",
   c8_item 9 "Agree", c8_item 10 "Disagree"]

/-- Witness for C8 at the concrete interleaved 5/5 universe. -/
theorem claim_c8_fallback_scenario_witness :
    ∃ c1 c2, enrich_clusters_with_support [] c8_items "question" = [c1, c2]
      ∧ c1.stance = "support" ∧ c2.stance = "concern"
      ∧ c1.member_count = 5 ∧ c2.member_count = 5
      ∧ c1.evidence_ids.length ≤ 8 ∧ c2.evidence_ids.length ≤ 8 :=
  claim_c8_fallback_scenario c8_items "question" (by decide) (by decide) (by decide)

end Neso
